import Mathlib

/-!
Verification of the NICMOS unit-conversion notebook
(`src/notebooks/nicmos_unit_conversion/nicmos_unit_conversion.ipynb`).

The notebook performs three flux-unit conversions by delegating to the
astropy/synphot unit libraries.  We embed the numeric content of those
calls over `ℝ`: the AB-magnitude conversion, the Planck blackbody photon
flux used by `synphot.BlackBodyNorm1D`, the `u.spectral()` wavelength to
frequency duality, and the magnitude formula `-2.5 * log10 (f / zpt)`.
Physical constants are the exact SI-2019 values used by astropy
(CODATA 2018), written in cgs where the notebook's quantities are cgs.

The spec additionally designs a small flux-conversion library (SpectralModel,
MagnitudeSystem with an error taxonomy); the parts of that design that have
no counterpart in the notebook are modelled from the spec and marked as such.
-/

open Real

/-! ### Physical constants (exact values as defined by astropy) -/

/-- Planck constant in erg s (exact SI 2019 value, as in astropy). -/
noncomputable def hPlanck : ℝ := 6.62607015e-27

/-- Speed of light in cm / s (exact). -/
noncomputable def cLight : ℝ := 2.99792458e10

/-- Speed of light in m / s (exact), the value astropy's `u.spectral()` uses. -/
noncomputable def cLightSI : ℝ := 2.99792458e8

/-- Boltzmann constant in erg / K (exact SI 2019 value, as in astropy). -/
noncomputable def kBoltz : ℝ := 1.380649e-16

/-! ### Example 1: Jy to AB magnitude -/

/-- The AB zero-point flux density in erg / (cm² s Hz): astropy's
`ABflux = 10 ** (48.6 / -2.5)` in cgs units. -/
noncomputable def abZeroPointCgs : ℝ := (10 : ℝ) ^ ((48.6 : ℝ) / (-2.5))

/-- Conversion of a flux density given in Jy to an AB magnitude, as astropy's
`.to(u.ABmag, ...)` computes it: convert to cgs (1 Jy = 1e-23 erg/cm²/s/Hz)
and take `-2.5 * log10` of the ratio to the AB zero point. -/
noncomputable def jyToABmag (fJy : ℝ) : ℝ :=
  -2.5 * Real.logb 10 (fJy * 1e-23 / abZeroPointCgs)

/-- `input_flux_ex1 = 1e-13 * u.Jy` (notebook Example 1). -/
noncomputable def input_flux_ex1 : ℝ := 1e-13

/-- `input_wave_ex1 = 1 * u.micron` (in microns).  The Jy → ABmag conversion
does not depend on it; it is the `spectral_density` context argument. -/
noncomputable def input_wave_ex1 : ℝ := 1

/-- `abmag_ex1 = input_flux_ex1.to(u.ABmag, u.spectral_density(input_wave_ex1))`. -/
noncomputable def abmag_ex1 : ℝ := jyToABmag input_flux_ex1

/-! ### Example 2: PHOTLAM to FNU for a 5500 K blackbody -/

/-- Planck's law per unit frequency, `B_ν(T)` in erg / (cm² s Hz sr):
`2 h ν³ / c² / (exp (h ν / (k T)) - 1)`.  This is
`synphot.units.blackbody_nu`. -/
noncomputable def planck_nu (T nu : ℝ) : ℝ :=
  2 * hPlanck * nu ^ 3 / cLight ^ 2 / (Real.exp (hPlanck * nu / (kBoltz * T)) - 1)

/-- Solar radius in cm, as used by synphot's blackbody renormalization. -/
noncomputable def rSun : ℝ := 6.957e10

/-- One kiloparsec in cm, as used by synphot's blackbody renormalization. -/
noncomputable def kpcCm : ℝ := 3.0856775814913673e21

/-- The solid angle `π (R_sun / 1 kpc)²` with which `BlackBodyNorm1D` scales
the Planck radiance (a star of one solar radius seen from 1 kpc). -/
noncomputable def omegaBB : ℝ := Real.pi * (rSun / kpcCm) ^ 2

/-- `synphot.models.BlackBodyNorm1D` evaluated at wavelength `lam` (in cm),
returning a photon flux density in PHOTLAM (photons / (cm² s Å)): the Planck
radiance at `ν = c / lam` is scaled by the solid angle, divided by the photon
energy `h ν`, converted from per-frequency to per-wavelength with the Jacobian
`c / lam²`, and converted from per-cm to per-Å with `1e-8`. -/
noncomputable def bbPhotlam (T lam : ℝ) : ℝ :=
  omegaBB * (planck_nu T (cLight / lam) / (hPlanck * (cLight / lam)))
    * (cLight / lam ^ 2) * 1e-8

/-- `bb_ex2 = SourceSpectrum(BlackBodyNorm1D, temperature=5500*u.K)`,
as a function of wavelength in cm. -/
noncomputable def bb_ex2 (lam : ℝ) : ℝ := bbPhotlam 5500 lam

/-- `input_flux_ex2 = 1 * syn_u.PHOTLAM`. -/
noncomputable def input_flux_ex2 : ℝ := 1

/-- `input_wave_ex2 = 0.5 * u.micron`, in cm. -/
noncomputable def input_wave_ex2 : ℝ := 0.5e-4

/-- `factor_ex2 = input_flux_ex2 / bb_ex2(input_wave_ex2)`. -/
noncomputable def factor_ex2 : ℝ := input_flux_ex2 / bb_ex2 input_wave_ex2

/-- `input_ex2 = bb_ex2 * factor_ex2` (the normalized source spectrum),
evaluated in PHOTLAM at a wavelength in cm. -/
noncomputable def input_ex2 (lam : ℝ) : ℝ := bb_ex2 lam * factor_ex2

/-- `output_wave_ex2 = 0.6 * u.micron`, in cm. -/
noncomputable def output_wave_ex2 : ℝ := 0.6e-4

/-- Conversion of a photon flux density `n` in PHOTLAM at wavelength `lam`
(in cm) to FNU (erg / (cm² s Hz)): multiply by the photon energy `h c / lam`,
convert per-Å to per-cm (`1e8`), and apply the Jacobian `lam² / c`;
the product collapses to `n * h * lam * 1e8`. -/
noncomputable def photlamToFnu (lam n : ℝ) : ℝ := n * hPlanck * (lam * 1e8)

/-- `flux_ex2 = input_ex2(output_wave_ex2, flux_unit=syn_u.FNU)`. -/
noncomputable def flux_ex2 : ℝ :=
  photlamToFnu output_wave_ex2 (input_ex2 output_wave_ex2)

/-! ### Example 3: power law, W/m²/Hz to I magnitude -/

/-- A wavelength-or-frequency `Quantity`, as passed to `powerlaw_ex3(nu)`:
the notebook calls it with quantities in micron, and `nu.to(u.Hz,
u.spectral())` also accepts a frequency directly. -/
inductive SpectralQuantity where
  | wavelengthMicron (w : ℝ)
  | frequencyHz (nu : ℝ)

/-- astropy's `nu.to(u.Hz, u.spectral())`: a frequency is returned as is, a
wavelength `w` micron is converted to `c / (w * 1e-6)` Hz with the SI speed
of light. -/
noncomputable def toHzSpectral : SpectralQuantity → ℝ
  | .wavelengthMicron w => cLightSI / (w * 1e-6)
  | .frequencyHz nu => nu

/-- `powerlaw_ex3(nu)`: `F(nu) = nu ** spectral_index` with
`spectral_index = 0.25`; the `.value` call strips the unit, so the result
is a bare real number. -/
noncomputable def powerlaw_ex3 (q : SpectralQuantity) : ℝ :=
  toHzSpectral q ^ (0.25 : ℝ)

/-- `input_flux_ex3 = 1e-23 * (u.W / (u.m * u.m * u.Hz))`, in W/m²/Hz. -/
noncomputable def input_flux_ex3 : ℝ := 1e-23

/-- `input_wave_ex3 = 1 * u.micron`, in microns. -/
noncomputable def input_wave_ex3 : ℝ := 1

/-- `output_wave_ex3 = 0.9 * u.micron`, in microns. -/
noncomputable def output_wave_ex3 : ℝ := 0.9

/-- `flux_ex3 = powerlaw_ex3(output_wave_ex3) * input_flux_ex3 /
powerlaw_ex3(input_wave_ex3)`, in W/m²/Hz. -/
noncomputable def flux_ex3 : ℝ :=
  powerlaw_ex3 (.wavelengthMicron output_wave_ex3) * input_flux_ex3 /
    powerlaw_ex3 (.wavelengthMicron input_wave_ex3)

/-- `imag_zpt = 2250 * u.Jy`, expressed in W/m²/Hz (1 Jy = 1e-26 W/m²/Hz);
astropy performs this rescaling when `flux_ex3 / imag_zpt` is reduced to a
dimensionless number inside `math.log10`. -/
noncomputable def imag_zpt : ℝ := 2250 * 1e-26

/-- `i = -2.5 * math.log10(flux_ex3 / imag_zpt)` (notebook Example 3). -/
noncomputable def imag_i : ℝ := -2.5 * Real.logb 10 (flux_ex3 / imag_zpt)

/-! ### The spec's SpectralModel abstraction -/

/-- The spec's closed variant type of spectral shapes:
`Blackbody(temperature) | PowerLaw(spectralIndex)`. -/
inductive SpectralModel where
  | blackbody (T : ℝ)
  | powerLaw (index : ℝ)

/-- `evaluate`: the unnormalized flux density of a spectral model at a query
point in the model's natural variable — wavelength in cm for the blackbody
(as in `bb_ex2`), frequency in Hz for the power law (as in `powerlaw_ex3`). -/
noncomputable def SpectralModel.evaluate : SpectralModel → ℝ → ℝ
  | .blackbody T, lam => bbPhotlam T lam
  | .powerLaw idx, nu => nu ^ idx

/-- The normalization factor `targetFlux / evaluate(at)`, exactly as
`factor_ex2 = input_flux_ex2 / bb_ex2(input_wave_ex2)` and the divisor in
`flux_ex3` compute it. -/
noncomputable def SpectralModel.normCoeff (m : SpectralModel) (f x : ℝ) : ℝ :=
  f / m.evaluate x

/-- Evaluation of the normalized model at `y`, having normalized to flux `f`
at `x`: `evaluate(y) * (f / evaluate(x))`, the pattern of `input_ex2` and
`flux_ex3`. -/
noncomputable def SpectralModel.normEval (m : SpectralModel) (f x y : ℝ) : ℝ :=
  m.evaluate y * m.normCoeff f x

/-! ### The spec's MagnitudeSystem / error taxonomy -/

/-- Modelled from the spec: the error taxonomy of §7 (`NonPositiveFluxError`,
`IncompatibleUnitsError`, `MissingContextError`, `UnknownSystemError`,
`DuplicateSystemError`).  The notebook itself has no error type; its
`math.log10` call simply fails on a non-positive argument. -/
inductive FluxError where
  | nonPositiveFlux
  | incompatibleUnits
  | missingContext
  | unknownSystem
  | duplicateSystem
deriving DecidableEq

/-- Modelled from the spec: `toMagnitude(zeroPoint)` of §4.1 — fails with
`NonPositiveFluxError` if the flux value is ≤ 0 (logarithm undefined),
otherwise returns `-2.5 * log10 (value / zeroPoint.value)`, the formula the
notebook instantiates as `i = -2.5 * math.log10(flux_ex3 / imag_zpt)`. -/
noncomputable def toMagnitude (f zpt : ℝ) : Except FluxError ℝ :=
  if f ≤ 0 then .error .nonPositiveFlux
  else .ok (-2.5 * Real.logb 10 (f / zpt))

/-! ### Unit bookkeeping for the Example 3 pipeline -/

/-- The flux units appearing in the notebook. -/
inductive FluxUnit where
  | wattPerM2Hz
  | jansky
  | photlamUnit
  | fnuUnit
deriving DecidableEq

/-- A tagged flux quantity: numeric value plus unit, the spec's UnitValue
restricted to flux densities. -/
structure FluxQuantity where
  value : ℝ
  unit : FluxUnit

/-- Multiplication of a quantity by a bare (dimensionless) number, as in
`powerlaw_ex3(output_wave_ex3) * input_flux_ex3`: the unit is untouched. -/
noncomputable def smulQ (s : ℝ) (q : FluxQuantity) : FluxQuantity :=
  ⟨s * q.value, q.unit⟩

/-- Division of a quantity by a bare (dimensionless) number, as in
`... / powerlaw_ex3(input_wave_ex3)`: the unit is untouched. -/
noncomputable def divScalarQ (q : FluxQuantity) (s : ℝ) : FluxQuantity :=
  ⟨q.value / s, q.unit⟩

/-- `input_flux_ex3` with its unit tag: `1e-23 * (u.W / (u.m * u.m * u.Hz))`. -/
noncomputable def input_flux_ex3_q : FluxQuantity := ⟨1e-23, .wattPerM2Hz⟩

/-- The `flux_ex3` computation generalized to arbitrary input and output
wavelengths (in micron), keeping the unit bookkeeping of the quantity
library: `powerlaw_ex3(wOut) * input_flux_ex3 / powerlaw_ex3(wIn)`. -/
noncomputable def flux_ex3_q (wIn wOut : ℝ) : FluxQuantity :=
  divScalarQ (smulQ (powerlaw_ex3 (.wavelengthMicron wOut)) input_flux_ex3_q)
    (powerlaw_ex3 (.wavelengthMicron wIn))

/-! ## Theorems -/

theorem abmag_ex1_eq : abmag_ex1 = 41.4 := by
  have h10 : (0 : ℝ) < 10 := by norm_num
  have hflux : (input_flux_ex1 * 1e-23 : ℝ) = (10 : ℝ) ^ ((-36 : ℝ)) := by
    rw [show ((-36 : ℝ)) = ((-36 : ℤ) : ℝ) by norm_num, Real.rpow_intCast]
    norm_num [input_flux_ex1]
  have hzpt : abZeroPointCgs = (10 : ℝ) ^ ((-19.44 : ℝ)) := by
    rw [abZeroPointCgs]
    norm_num
  have hdiv : (input_flux_ex1 * 1e-23 : ℝ) / abZeroPointCgs
      = (10 : ℝ) ^ ((-16.56 : ℝ)) := by
    rw [hflux, hzpt, ← Real.rpow_sub h10]
    norm_num
  rw [abmag_ex1, jyToABmag, hdiv,
    Real.logb_rpow (by norm_num) (by norm_num)]
  norm_num

/-- Claim C1, counterexample: the Jy → AB-magnitude conversion of Example 1
returns exactly 41.4, which is not within 0.01 of the claimed 41.43 (the
legacy form's value came from the older −48.57 AB zero-point convention). -/
theorem C1_counterexample : ¬ (|abmag_ex1 - 41.43| ≤ 0.01) := by
  rw [abmag_ex1_eq, show (41.4 : ℝ) - 41.43 = -(0.03) by norm_num, abs_neg,
    abs_of_pos (by norm_num : (0 : ℝ) < 0.03)]
  norm_num

/-- Claim C1, amended: for input flux 1e-13 Jy at wavelength 1 micron, the
Jy-to-AB-magnitude conversion of Example 1 returns an AB magnitude of 41.40
within an absolute tolerance of 0.01 (in fact it equals 41.40 exactly). -/
theorem C1_abmag_ex1_value : |abmag_ex1 - 41.40| ≤ 0.01 := by
  rw [abmag_ex1_eq, show (41.4 : ℝ) - 41.40 = 0 by norm_num, abs_zero]
  norm_num

/-- Claim C4: normalization correctness — for every spectral model `m`
(blackbody or power law), target flux `f`, and query point `w` at which the
unnormalized evaluation is nonzero, normalizing `m` to `f` at `w` and then
evaluating the normalized model at `w` returns `f` exactly:
`evaluate(w) * (f / evaluate(w)) = f`. -/
theorem C4_normalization_correct (m : SpectralModel) (f w : ℝ)
    (h : m.evaluate w ≠ 0) : m.normEval f w w = f := by
  rw [SpectralModel.normEval, SpectralModel.normCoeff, ← mul_div_assoc,
    mul_div_cancel_left₀ f h]

/-- Witness for C4: the power law of Example 3 normalized to flux 3 at
frequency 1 Hz evaluates back to 3 there. -/
theorem C4_normalization_correct_witness :
    (SpectralModel.powerLaw 0.25).normEval 3 1 1 = 3 :=
  C4_normalization_correct (SpectralModel.powerLaw 0.25) 3 1
    (by simp [SpectralModel.evaluate])

/-- Claim C5: for every positive flux (in W/m²/Hz), the flux-to-magnitude
conversion with the I-system zero point computes exactly
`-2.5 * log10 (flux / zeroPointFlux)` with both fluxes expressed in matching
units — computing it with both converted to Jy (zero point 2250 Jy) gives
the same magnitude — and the notebook's `i` instantiates this formula with
`flux_ex3` and `imag_zpt`. -/
theorem C5_magnitude_formula (f : ℝ) (hf : 0 < f) :
    toMagnitude f imag_zpt = .ok (-2.5 * Real.logb 10 ((f * 1e26) / 2250)) ∧
      imag_i = -2.5 * Real.logb 10 (flux_ex3 / imag_zpt) := by
  constructor
  · rw [toMagnitude, if_neg (not_le.mpr hf)]
    have h : f / imag_zpt = (f * 1e26) / 2250 := by
      rw [imag_zpt]
      ring
    rw [h]
  · rfl

/-- Witness for C5: applied at the concrete flux `4500e-26` W/m²/Hz
(= 4500 Jy, twice the zero point). -/
theorem C5_magnitude_formula_witness :
    toMagnitude 4500e-26 imag_zpt
        = .ok (-2.5 * Real.logb 10 ((4500e-26 * 1e26) / 2250)) ∧
      imag_i = -2.5 * Real.logb 10 (flux_ex3 / imag_zpt) :=
  C5_magnitude_formula 4500e-26 (by norm_num)

/-- Claim C6: monotonicity — for a power-law spectral model with spectral
index strictly greater than 0 (the code's fixed index is 0.25), the evaluated
flux is strictly increasing in frequency: `nu1 < nu2` (both positive) implies
`evaluate(nu1) < evaluate(nu2)`. -/
theorem C6_powerlaw_strict_mono (idx nu1 nu2 : ℝ) (hidx : 0 < idx)
    (h1 : 0 < nu1) (h12 : nu1 < nu2) :
    (SpectralModel.powerLaw idx).evaluate nu1
      < (SpectralModel.powerLaw idx).evaluate nu2 := by
  simpa [SpectralModel.evaluate] using Real.rpow_lt_rpow h1.le h12 hidx

/-- Witness for C6: with the notebook's index 0.25, the power law is larger
at 16 Hz than at 1 Hz. -/
theorem C6_powerlaw_strict_mono_witness :
    (SpectralModel.powerLaw 0.25).evaluate 1
      < (SpectralModel.powerLaw 0.25).evaluate 16 :=
  C6_powerlaw_strict_mono 0.25 1 16 (by norm_num) (by norm_num) (by norm_num)

/-- Claim C7: for every flux value ≤ 0 and any zero point, the
flux-to-magnitude conversion fails with `NonPositiveFluxError` (and with no
other outcome), per the spec's §4.1/§7 design. -/
theorem C7_nonpositive_flux_error (f zpt : ℝ) (hf : f ≤ 0) :
    toMagnitude f zpt = .error .nonPositiveFlux := by
  rw [toMagnitude, if_pos hf]

/-- Witness for C7: flux 0 with the I-system zero point. -/
theorem C7_nonpositive_flux_error_witness :
    toMagnitude 0 imag_zpt = .error .nonPositiveFlux :=
  C7_nonpositive_flux_error 0 imag_zpt (by norm_num)

/-- Claim C8: `powerlaw_ex3` computes flux = frequency^0.25, deriving the
frequency from a wavelength via the speed of light: for every positive
wavelength `w` (micron) the result is `(c / (w * 1e-6)) ^ 0.25` with
`c = 2.99792458e8` m/s, and for a frequency input `nu` (Hz) it is
`nu ^ 0.25`. -/
theorem C8_powerlaw_spectral (w : ℝ) (hw : 0 < w) :
    powerlaw_ex3 (.wavelengthMicron w)
        = (2.99792458e8 / (w * 1e-6)) ^ (0.25 : ℝ) ∧
      ∀ nu : ℝ, powerlaw_ex3 (.frequencyHz nu) = nu ^ (0.25 : ℝ) := by
  constructor
  · rw [powerlaw_ex3, toHzSpectral, cLightSI]
  · intro nu
    rw [powerlaw_ex3, toHzSpectral]

/-- Witness for C8: at wavelength 1 micron. -/
theorem C8_powerlaw_spectral_witness :
    powerlaw_ex3 (.wavelengthMicron 1)
        = (2.99792458e8 / (1 * 1e-6)) ^ (0.25 : ℝ) ∧
      ∀ nu : ℝ, powerlaw_ex3 (.frequencyHz nu) = nu ^ (0.25 : ℝ) :=
  C8_powerlaw_spectral 1 (by norm_num)

/-- Claim C9: zero-point identity — a flux exactly equal to a magnitude
system's (positive) zero-point flux converts to magnitude 0. -/
theorem C9_zero_point_identity (z : ℝ) (hz : 0 < z) :
    toMagnitude z z = .ok 0 := by
  rw [toMagnitude, if_neg (not_le.mpr hz), div_self (ne_of_gt hz),
    Real.logb_one, mul_zero]

/-- Witness for C9: the I-system zero point, 2250 Jy in W/m²/Hz. -/
theorem C9_zero_point_identity_witness : toMagnitude imag_zpt imag_zpt = .ok 0 :=
  C9_zero_point_identity imag_zpt (by rw [imag_zpt]; norm_num)

/-- Claim C10: `powerlaw_ex3` returns a bare dimensionless number, so for
every pair of input and output wavelengths the normalized flux
`powerlaw_ex3(wOut) * input_flux_ex3 / powerlaw_ex3(wIn)` carries exactly
the unit of the input flux, W/m²/Hz: the pipeline changes the numeric value
only, never the unit. -/
theorem C10_unit_preserved (wIn wOut : ℝ) :
    (flux_ex3_q wIn wOut).unit = input_flux_ex3_q.unit ∧
      (flux_ex3_q wIn wOut).unit = FluxUnit.wattPerM2Hz :=
  ⟨rfl, rfl⟩

/-! ### Interval bounds for the exponential and logarithm

The remaining claims (Examples 2 and 3) assert numeric tolerances on
expressions in `exp` and `log`; we bound them with degree-12 Taylor
polynomials on `[0, 1]` and the 10-digit bounds on `e`. -/

theorem exp_taylor12_lb (t : ℝ) (h0 : 0 ≤ t) :
    1 + t + t ^ 2 / 2 + t ^ 3 / 6 + t ^ 4 / 24 + t ^ 5 / 120 + t ^ 6 / 720
      + t ^ 7 / 5040 + t ^ 8 / 40320 + t ^ 9 / 362880 + t ^ 10 / 3628800
      + t ^ 11 / 39916800 ≤ Real.exp t := by
  have h := Real.sum_le_exp_of_nonneg h0 12
  have e : ∑ i ∈ Finset.range 12, t ^ i / (Nat.factorial i)
      = 1 + t + t ^ 2 / 2 + t ^ 3 / 6 + t ^ 4 / 24 + t ^ 5 / 120 + t ^ 6 / 720
        + t ^ 7 / 5040 + t ^ 8 / 40320 + t ^ 9 / 362880 + t ^ 10 / 3628800
        + t ^ 11 / 39916800 := by
    simp [Finset.sum_range_succ, Nat.factorial]
  rwa [e] at h

theorem exp_taylor12_ub (t : ℝ) (h0 : 0 ≤ t) (h1 : t ≤ 1) :
    Real.exp t ≤ 1 + t + t ^ 2 / 2 + t ^ 3 / 6 + t ^ 4 / 24 + t ^ 5 / 120
      + t ^ 6 / 720 + t ^ 7 / 5040 + t ^ 8 / 40320 + t ^ 9 / 362880
      + t ^ 10 / 3628800 + t ^ 11 / 39916800 + t ^ 12 * 13 / 5748019200 := by
  refine le_trans (Real.exp_bound' h0 h1 (show 0 < 12 by norm_num)) (le_of_eq ?_)
  simp [Finset.sum_range_succ, Nat.factorial]
  norm_num

theorem exp_lb_of_le (k : ℕ) (t x : ℝ) (h0 : 0 ≤ t) (hle : (k : ℝ) + t ≤ x) :
    (2.7182818283 : ℝ) ^ k
      * (1 + t + t ^ 2 / 2 + t ^ 3 / 6 + t ^ 4 / 24 + t ^ 5 / 120 + t ^ 6 / 720
        + t ^ 7 / 5040 + t ^ 8 / 40320 + t ^ 9 / 362880 + t ^ 10 / 3628800
        + t ^ 11 / 39916800) ≤ Real.exp x := by
  have h1 : (2.7182818283 : ℝ) ^ k ≤ Real.exp 1 ^ k :=
    pow_le_pow_left₀ (by norm_num) Real.exp_one_gt_d9.le k
  have h2 := exp_taylor12_lb t h0
  have h3 : Real.exp 1 ^ k * Real.exp t = Real.exp ((k : ℝ) + t) := by
    rw [← Real.exp_nat_mul, mul_one, ← Real.exp_add]
  calc (2.7182818283 : ℝ) ^ k
      * (1 + t + t ^ 2 / 2 + t ^ 3 / 6 + t ^ 4 / 24 + t ^ 5 / 120 + t ^ 6 / 720
        + t ^ 7 / 5040 + t ^ 8 / 40320 + t ^ 9 / 362880 + t ^ 10 / 3628800
        + t ^ 11 / 39916800)
      ≤ Real.exp 1 ^ k * Real.exp t :=
        mul_le_mul h1 h2 (by positivity) (by positivity)
  _ = Real.exp ((k : ℝ) + t) := h3
  _ ≤ Real.exp x := Real.exp_le_exp.mpr hle

theorem exp_ub_of_le (k : ℕ) (t x : ℝ) (h0 : 0 ≤ t) (ht1 : t ≤ 1)
    (hle : x ≤ (k : ℝ) + t) :
    Real.exp x ≤ (2.7182818286 : ℝ) ^ k
      * (1 + t + t ^ 2 / 2 + t ^ 3 / 6 + t ^ 4 / 24 + t ^ 5 / 120 + t ^ 6 / 720
        + t ^ 7 / 5040 + t ^ 8 / 40320 + t ^ 9 / 362880 + t ^ 10 / 3628800
        + t ^ 11 / 39916800 + t ^ 12 * 13 / 5748019200) := by
  have h1 : Real.exp 1 ^ k ≤ (2.7182818286 : ℝ) ^ k :=
    pow_le_pow_left₀ (Real.exp_pos 1).le Real.exp_one_lt_d9.le k
  have h2 := exp_taylor12_ub t h0 ht1
  have h3 : Real.exp 1 ^ k * Real.exp t = Real.exp ((k : ℝ) + t) := by
    rw [← Real.exp_nat_mul, mul_one, ← Real.exp_add]
  calc Real.exp x ≤ Real.exp ((k : ℝ) + t) := Real.exp_le_exp.mpr hle
  _ = Real.exp 1 ^ k * Real.exp t := h3.symm
  _ ≤ (2.7182818286 : ℝ) ^ k
      * (1 + t + t ^ 2 / 2 + t ^ 3 / 6 + t ^ 4 / 24 + t ^ 5 / 120 + t ^ 6 / 720
        + t ^ 7 / 5040 + t ^ 8 / 40320 + t ^ 9 / 362880 + t ^ 10 / 3628800
        + t ^ 11 / 39916800 + t ^ 12 * 13 / 5748019200) :=
        mul_le_mul h1 h2 (Real.exp_pos t).le (by positivity)

theorem exp_arg5_lower :
    (187.1 : ℝ) ≤ Real.exp (hPlanck * (cLight / 0.5e-4) / (kBoltz * 5500)) := by
  refine le_trans (by norm_num)
    (exp_lb_of_le 5 0.2319159 _ (by norm_num) ?_)
  rw [hPlanck, cLight, kBoltz]
  norm_num

theorem exp_arg5_upper :
    Real.exp (hPlanck * (cLight / 0.5e-4) / (kBoltz * 5500)) ≤ 187.2 := by
  refine le_trans
    (exp_ub_of_le 5 0.231916 _ (by norm_num) (by norm_num) ?_) (by norm_num)
  rw [hPlanck, cLight, kBoltz]
  norm_num

theorem exp_arg6_lower :
    (78.2 : ℝ) ≤ Real.exp (hPlanck * (cLight / 0.6e-4) / (kBoltz * 5500)) := by
  refine le_trans (by norm_num)
    (exp_lb_of_le 4 0.3599299 _ (by norm_num) ?_)
  rw [hPlanck, cLight, kBoltz]
  norm_num

theorem exp_arg6_upper :
    Real.exp (hPlanck * (cLight / 0.6e-4) / (kBoltz * 5500)) ≤ 78.3 := by
  refine le_trans
    (exp_ub_of_le 4 0.35993 _ (by norm_num) (by norm_num) ?_) (by norm_num)
  rw [hPlanck, cLight, kBoltz]
  norm_num

set_option maxHeartbeats 1000000 in
theorem bbPhotlam_eq (T lam : ℝ) (hlam : lam ≠ 0)
    (hE : Real.exp (hPlanck * (cLight / lam) / (kBoltz * T)) - 1 ≠ 0) :
    bbPhotlam T lam = 2 * omegaBB * cLight * 1e-8
      / (lam ^ 4 * (Real.exp (hPlanck * (cLight / lam) / (kBoltz * T)) - 1)) := by
  have hh : hPlanck ≠ 0 := by rw [hPlanck]; norm_num
  have hc : cLight ≠ 0 := by rw [cLight]; norm_num
  simp only [bbPhotlam, planck_nu]
  set e1 := Real.exp (hPlanck * (cLight / lam) / (kBoltz * T)) with he1
  field_simp
  ring

set_option maxHeartbeats 1000000 in
theorem flux_ex2_eq :
    flux_ex2 = 625 / 1296 * (hPlanck * 6000)
      * ((Real.exp (hPlanck * (cLight / 0.5e-4) / (kBoltz * 5500)) - 1)
        / (Real.exp (hPlanck * (cLight / 0.6e-4) / (kBoltz * 5500)) - 1)) := by
  have hπ : Real.pi ≠ 0 := Real.pi_ne_zero
  have hh : hPlanck ≠ 0 := by rw [hPlanck]; norm_num
  have hc : cLight ≠ 0 := by rw [cLight]; norm_num
  have hr : rSun ≠ 0 := by rw [rSun]; norm_num
  have hk : kpcCm ≠ 0 := by rw [kpcCm]; norm_num
  have h5 : Real.exp (hPlanck * (cLight / 0.5e-4) / (kBoltz * 5500)) - 1 ≠ 0 := by
    have h : (1 : ℝ) < Real.exp (hPlanck * (cLight / 0.5e-4) / (kBoltz * 5500)) := by
      rw [Real.one_lt_exp_iff, hPlanck, cLight, kBoltz]
      norm_num
    linarith
  have h6 : Real.exp (hPlanck * (cLight / 0.6e-4) / (kBoltz * 5500)) - 1 ≠ 0 := by
    have h : (1 : ℝ) < Real.exp (hPlanck * (cLight / 0.6e-4) / (kBoltz * 5500)) := by
      rw [Real.one_lt_exp_iff, hPlanck, cLight, kBoltz]
      norm_num
    linarith
  have hω : omegaBB ≠ 0 := by
    rw [omegaBB]
    positivity
  simp only [flux_ex2, photlamToFnu, input_ex2, factor_ex2, bb_ex2, input_flux_ex2,
    input_wave_ex2, output_wave_ex2]
  rw [bbPhotlam_eq 5500 0.5e-4 (by norm_num) h5, bbPhotlam_eq 5500 0.6e-4 (by norm_num) h6]
  set e5 := Real.exp (hPlanck * (cLight / 0.5e-4) / (kBoltz * 5500)) with he5
  set e6 := Real.exp (hPlanck * (cLight / 0.6e-4) / (kBoltz * 5500)) with he6
  field_simp
  ring

/-- Claim C2: for the blackbody source at 5500 K normalized so that its flux
is 1 PHOTLAM at 0.5 micron, the flux at 0.6 micron converted to FNU
(`flux_ex2`) equals 4.62e-23 erg/cm²/s/Hz within a relative tolerance
of 1%. -/
theorem C2_flux_ex2_value : |flux_ex2 - 4.62e-23| ≤ 0.01 * 4.62e-23 := by
  rw [flux_ex2_eq]
  set b := Real.exp (hPlanck * (cLight / 0.5e-4) / (kBoltz * 5500)) with hbdef
  set a := Real.exp (hPlanck * (cLight / 0.6e-4) / (kBoltz * 5500)) with hadef
  have hb1 : (187.1 : ℝ) ≤ b := exp_arg5_lower
  have hb2 : b ≤ 187.2 := exp_arg5_upper
  have ha1 : (78.2 : ℝ) ≤ a := exp_arg6_lower
  have ha2 : a ≤ 78.3 := exp_arg6_upper
  have hr1 : (186.1 : ℝ) / 77.3 ≤ (b - 1) / (a - 1) :=
    div_le_div₀ (by linarith) (by linarith) (by linarith) (by linarith)
  have hr2 : (b - 1) / (a - 1) ≤ 186.2 / 77.2 :=
    div_le_div₀ (by norm_num) (by linarith) (by norm_num) (by linarith)
  rw [hPlanck, abs_le]
  constructor
  · nlinarith [hr1]
  · nlinarith [hr2]

theorem log_ten_lb : (2.302585 : ℝ) ≤ Real.log 10 := by
  rw [Real.le_log_iff_exp_le (by norm_num : (0 : ℝ) < 10)]
  refine le_trans
    (exp_ub_of_le 2 0.302585 _ (by norm_num) (by norm_num) (by norm_num))
    (by norm_num)

theorem log_ten_ub : Real.log 10 ≤ 2.302586 := by
  rw [Real.log_le_iff_le_exp (by norm_num : (0 : ℝ) < 10)]
  refine le_trans (by norm_num)
    (exp_lb_of_le 2 0.302586 _ (by norm_num) (by norm_num))

theorem log_tenninths_lb : (0.10536 : ℝ) ≤ Real.log (10 / 9) := by
  rw [Real.le_log_iff_exp_le (by norm_num : (0 : ℝ) < 10 / 9)]
  refine le_trans
    (exp_ub_of_le 0 0.10536 _ (by norm_num) (by norm_num) (by norm_num))
    (by norm_num)

theorem log_tenninths_ub : Real.log (10 / 9) ≤ 0.105361 := by
  rw [Real.log_le_iff_le_exp (by norm_num : (0 : ℝ) < 10 / 9)]
  refine le_trans (by norm_num)
    (exp_lb_of_le 0 0.105361 _ (by norm_num) (by norm_num))

theorem log_ninefourths_lb : (0.81093 : ℝ) ≤ Real.log (9 / 4) := by
  rw [Real.le_log_iff_exp_le (by norm_num : (0 : ℝ) < 9 / 4)]
  refine le_trans
    (exp_ub_of_le 0 0.81093 _ (by norm_num) (by norm_num) (by norm_num))
    (by norm_num)

theorem log_ninefourths_ub : Real.log (9 / 4) ≤ 0.810931 := by
  rw [Real.log_le_iff_le_exp (by norm_num : (0 : ℝ) < 9 / 4)]
  refine le_trans (by norm_num)
    (exp_lb_of_le 0 0.810931 _ (by norm_num) (by norm_num))

theorem flux_ex3_over_zpt :
    flux_ex3 / imag_zpt = ((10 : ℝ) / 9) ^ (0.25 : ℝ) / 2.25 := by
  have hpos1 : (0 : ℝ) < cLightSI / (1 * 1e-6) := by rw [cLightSI]; norm_num
  have hpos9 : (0 : ℝ) < cLightSI / (0.9 * 1e-6) := by rw [cLightSI]; norm_num
  have hratio : ((10 : ℝ) / 9)
      = cLightSI / (0.9 * 1e-6) / (cLightSI / (1 * 1e-6)) := by
    rw [cLightSI]
    norm_num
  have hne : (cLightSI / (1 * 1e-6)) ^ (0.25 : ℝ) ≠ 0 :=
    ne_of_gt (Real.rpow_pos_of_pos hpos1 _)
  simp only [flux_ex3, imag_zpt, powerlaw_ex3, toHzSpectral, input_flux_ex3,
    output_wave_ex3, input_wave_ex3]
  rw [hratio, Real.div_rpow hpos9.le hpos1.le]
  field_simp
  ring

theorem imag_i_eq :
    imag_i = -2.5 * ((0.25 * Real.log (10 / 9) - Real.log (9 / 4)) / Real.log 10) := by
  have hpow : (0 : ℝ) < ((10 : ℝ) / 9) ^ (0.25 : ℝ) :=
    Real.rpow_pos_of_pos (by norm_num) _
  rw [imag_i, flux_ex3_over_zpt, Real.logb,
    show (2.25 : ℝ) = 9 / 4 by norm_num,
    Real.log_div (ne_of_gt hpow) (by norm_num),
    Real.log_rpow (by norm_num : (0 : ℝ) < 10 / 9)]

/-- Claim C3: the power-law example — spectral index 0.25, input flux 1e-23
W/m²/Hz at 1 micron, evaluated at 0.9 micron and converted to the custom "I"
magnitude system with zero point 2250 Jy — yields magnitude 0.85 within an
absolute tolerance of 0.01. -/
theorem C3_imag_value : |imag_i - 0.85| ≤ 0.01 := by
  rw [imag_i_eq]
  have h1a := log_tenninths_lb
  have h1b := log_tenninths_ub
  have h2a := log_ninefourths_lb
  have h2b := log_ninefourths_ub
  have h3a := log_ten_lb
  have h3b := log_ten_ub
  set l1 := Real.log (10 / 9)
  set l2 := Real.log (9 / 4)
  set l10 := Real.log 10
  have hl10 : (0 : ℝ) < l10 := by linarith
  have heq : -2.5 * ((0.25 * l1 - l2) / l10) = (-2.5 * (0.25 * l1 - l2)) / l10 := by
    ring
  have hnum1 : (0.84 : ℝ) * l10 ≤ -2.5 * (0.25 * l1 - l2) := by linarith
  have hnum2 : -2.5 * (0.25 * l1 - l2) ≤ (0.86 : ℝ) * l10 := by linarith
  have hx1 : (0.84 : ℝ) ≤ -2.5 * (0.25 * l1 - l2) / l10 :=
    (le_div_iff₀ hl10).mpr hnum1
  have hx2 : -2.5 * (0.25 * l1 - l2) / l10 ≤ 0.86 :=
    (div_le_iff₀ hl10).mpr hnum2
  rw [heq, abs_le]
  constructor
  · linarith
  · linarith
